import Mathlib

/-!
Verification of the RAGVideo content-understanding orchestration core.

The definitions below are a shallow embedding of the Python sources:
- `src/functions/VideoProcessingOrchestrator/__init__.py` (`orchestrator_function`)
- `src/functions/VideoProcessingStarter/__init__.py` (`main`, `extract_container_name`, `is_video_file`)
- `src/functions/VideoProcessingStatus/__init__.py` (`main`, `get_orchestration_status`)

Python dicts/JSON payloads are modelled by the inductive `JVal`; Python
exceptions are modelled by `Except`; the deterministic orchestration clock
(`context.current_utc_datetime`, constant between `yield`s) is modelled by a
function from the number of completed yields to an integer timestamp, and
`isoformat`/`fromisoformat` round-trips are modelled as the identity on those
integer timestamps.
-/

namespace RAGVideo

/-- JSON-like payload values exchanged between the orchestrator and activities.
`null` models Python `None`. -/
inductive JVal where
  | null
  | str (s : String)
  | num (n : Int)
  | obj (fields : List (String × JVal))
  | arr (elems : List JVal)

/-- Python `d.get(key)`: on a dict, the value stored at `key` (or `None` when
absent); on any other receiver an `AttributeError` is raised. -/
def pyGet : JVal → String → Except String JVal
  | JVal.obj fields, k =>
    match fields.lookup k with
    | some v => Except.ok v
    | none => Except.ok JVal.null
  | _, _ => Except.error "AttributeError"

/-- One entry of `orchestration_result["steps"]` (orchestrator lines 41-45 etc.). -/
structure StepRecord where
  status : String
  result : JVal
  timestamp : Int

/-- One entry of `orchestration_result["errors"]` (orchestrator lines 125-129). -/
structure ErrorRecord where
  error : String
  timestamp : Int
  step : String
  deriving DecidableEq

/-- The `orchestration_result` dict built by `orchestrator_function`.
`steps` keeps dict insertion order. -/
structure OrchResult where
  video_info : JVal
  start_time : Int
  status : String
  steps : List (String × StepRecord)
  errors : List ErrorRecord
  end_time : Option Int
  processing_duration_seconds : Option Int

/-- The Activity Invoker boundary: `invoke(stage_name, payload)` returns the
activity's result or fails with an error message. -/
def Invoker : Type := String → JVal → Except String JVal

/-- Modelled from the spec: the Durable Functions instance history, absent from
`src/` (it lives in the `azure.durable_functions` framework behind
`context.call_activity`).  Per spec section 4.1 it records, per stage name, the
result of each already-completed stage of this instance. -/
def History : Type := List (String × JVal)

/-- Modelled from the spec: dispatch of one stage by the State Machine.  Spec
section 4.1: before invoking a stage the recorded history is consulted; "if a
StepRecord already exists for that stage ... its recorded result is reused
instead of re-invoking the Activity Invoker".  Returns the stage outcome and
the list of external Activity Invoker calls actually made (name, payload). -/
def stageCall (hist : History) (invoke : Invoker) (name : String) (payload : JVal) :
    Except String JVal × List (String × JVal) :=
  match hist.lookup name with
  | some r => (Except.ok r, [])
  | none => (invoke name payload, [(name, payload)])

/-- The stage-2 input dict (orchestrator lines 51-54). -/
def analyze_payload (video_info metadata_result : JVal) : JVal :=
  JVal.obj [("video_info", video_info), ("metadata", metadata_result)]

/-- The stage-3 input dict (orchestrator lines 66-70). -/
def embeddings_payload (video_info analysis_result metadata_result : JVal) : JVal :=
  JVal.obj [("video_info", video_info), ("analysis", analysis_result),
    ("metadata", metadata_result)]

/-- The stage-4 input dict (orchestrator lines 82-87). -/
def search_payload (video_info metadata_result analysis_result embeddings_result : JVal) : JVal :=
  JVal.obj [("video_info", video_info), ("metadata", metadata_result),
    ("analysis", analysis_result), ("embeddings", embeddings_result)]

/-- The stage-5 input dict (orchestrator lines 99-104). -/
def insights_payload (video_info metadata_result analysis_result doc_id : JVal) : JVal :=
  JVal.obj [("video_info", video_info), ("metadata", metadata_result),
    ("analysis", analysis_result), ("search_document_id", doc_id)]

/-- The `except Exception` branch of `orchestrator_function` (lines 123-132):
appends one ErrorRecord with `step = "orchestration"`, sets status `failed`
and records `end_time`.  `tk` is the current deterministic time. -/
def failResult (vi : JVal) (t0 : Int) (steps : List (String × StepRecord))
    (e : String) (tk : Int) : OrchResult :=
  { video_info := vi
    start_time := t0
    status := "failed"
    steps := steps
    errors := [{ error := e, timestamp := tk, step := "orchestration" }]
    end_time := some tk
    processing_duration_seconds := none }

/-- Shallow embedding of `orchestrator_function`
(`src/functions/VideoProcessingOrchestrator/__init__.py`, lines 9-139).

The five stages are invoked strictly in sequence with the exact payloads the
source builds; each success appends a `StepRecord` keyed by the source's step
key; any stage failure (including the `AttributeError` from
`search_result.get("document_id")` on a non-dict stage-4 result) is caught by
the `except` branch (`failResult`).  `time k` is `context.current_utc_datetime`
after `k` completed yields.  The initial `video_info.get('blob_name')` on line
23 happens outside the `try`, so a non-dict input raises out of the function
(`Except.error`).  Returns the `orchestration_result` together with the list of
external activity calls made. -/
def orchestrator_function (hist : History) (invoke : Invoker) (video_info : JVal)
    (time : Nat → Int) : Except String (OrchResult × List (String × JVal)) :=
  match video_info with
  | JVal.obj _ =>
    let t0 := time 0
    Except.ok <|
    match stageCall hist invoke "ExtractVideoMetadata" video_info with
    | (Except.error e, c1) => (failResult video_info t0 [] e (time 1), c1)
    | (Except.ok metadata_result, c1) =>
      let steps1 := [("metadata", StepRecord.mk "completed" metadata_result (time 1))]
      let p2 := analyze_payload video_info metadata_result
      match stageCall hist invoke "AnalyzeVideoContent" p2 with
      | (Except.error e, c2) => (failResult video_info t0 steps1 e (time 2), c1 ++ c2)
      | (Except.ok analysis_result, c2) =>
        let steps2 := steps1 ++ [("analysis", StepRecord.mk "completed" analysis_result (time 2))]
        let p3 := embeddings_payload video_info analysis_result metadata_result
        match stageCall hist invoke "GenerateEmbeddings" p3 with
        | (Except.error e, c3) => (failResult video_info t0 steps2 e (time 3), c1 ++ c2 ++ c3)
        | (Except.ok embeddings_result, c3) =>
          let steps3 := steps2 ++
            [("embeddings", StepRecord.mk "completed" embeddings_result (time 3))]
          let p4 := search_payload video_info metadata_result analysis_result embeddings_result
          match stageCall hist invoke "StoreInAzureSearch" p4 with
          | (Except.error e, c4) => (failResult video_info t0 steps3 e (time 4), c1 ++ c2 ++ c3 ++ c4)
          | (Except.ok search_result, c4) =>
            let steps4 := steps3 ++
              [("search_storage", StepRecord.mk "completed" search_result (time 4))]
            match pyGet search_result "document_id" with
            | Except.error e => (failResult video_info t0 steps4 e (time 4), c1 ++ c2 ++ c3 ++ c4)
            | Except.ok doc_id =>
              let p5 := insights_payload video_info metadata_result analysis_result doc_id
              match stageCall hist invoke "GenerateVideoInsights" p5 with
              | (Except.error e, c5) =>
                (failResult video_info t0 steps4 e (time 5), c1 ++ c2 ++ c3 ++ c4 ++ c5)
              | (Except.ok insights_result, c5) =>
                let steps5 := steps4 ++
                  [("insights", StepRecord.mk "completed" insights_result (time 5))]
                ({ video_info := video_info
                   start_time := t0
                   status := "completed"
                   steps := steps5
                   errors := []
                   end_time := some (time 5)
                   processing_duration_seconds := some (time 5 - t0) },
                 c1 ++ c2 ++ c3 ++ c4 ++ c5)
  | _ => Except.error "AttributeError"

/-- The sequence of values assigned to `orchestration_result["status"]` during
one run of `orchestrator_function`: it is initialised to `"processing"` (line
29) and reassigned exactly once, to `"completed"` (line 113) or `"failed"`
(line 131), before the function returns. -/
def statusTrace (r : OrchResult) : List String := ["processing", r.status]

/-! ## Python string primitives

Lean's built-in `String.splitOn`/`String.endsWith` are defined by well-founded
recursion and do not reduce on closed terms, so the Python string operations
the Starter uses are embedded structurally over the underlying `List Char`. -/

/-- Python `str.split(sep)` for a one-character separator, on the character
list: `"".split(sep) == [""]`, adjacent separators produce empty segments. -/
def splitOnChar (c : Char) : List Char → List (List Char)
  | [] => [[]]
  | x :: xs =>
    let r := splitOnChar c xs
    if x = c then [] :: r
    else
      match r with
      | [] => [[x]]
      | y :: ys => (x :: y) :: ys

/-- Python `s.split(sep)` for a one-character separator. -/
def pySplit (s : String) (c : Char) : List String :=
  (splitOnChar c s.data).map String.mk

/-- Python `str.lower()` (ASCII case folding, which covers the source's
allow-lists and file names). -/
def pyLower (s : String) : String := String.mk (s.data.map Char.toLower)

/-- Python `s.endswith(suffix)`. -/
def pyEndsWith (s suffix : String) : Bool := List.isSuffixOf suffix.data s.data

/-! ## Trigger/Starter (`src/functions/VideoProcessingStarter/__init__.py`) -/

/-- Shallow embedding of `extract_container_name` (Starter lines 53-61):
`parts.index("containers")` is `List.indexOf?` (its `except ValueError` branch
is the `none` case) and `parts[container_index] if container_index < len(parts)
else ""` is the bounds-checked access.  Total: every exception path of the
source is caught and yields `""`. -/
def extract_container_name (subject : String) : String :=
  let parts := pySplit subject '/'
  match parts.indexOf? "containers" with
  | none => ""
  | some i =>
    let container_index := i + 1
    if container_index < parts.length then parts.getD container_index "" else ""

/-- The content-type allow-list of `is_video_file` (Starter lines 69-78). -/
def video_content_types : List String :=
  ["video/mp4", "video/avi", "video/mov", "video/wmv", "video/flv", "video/webm",
   "video/quicktime", "video/x-msvideo"]

/-- The filename-extension allow-list of `is_video_file` (Starter line 85). -/
def video_extensions : List String :=
  [".mp4", ".avi", ".mov", ".wmv", ".flv", ".webm", ".mkv"]

/-- The extension fallback of `is_video_file` (Starter lines 84-88); Python
`if blob_name:` is truthiness, so `None` and `""` both fall through to the
final `return False`. -/
def extension_fallback : Option String → Bool
  | some blob_name =>
    if blob_name ≠ "" then
      video_extensions.any (fun ext => pyEndsWith (pyLower blob_name) ext)
    else false
  | none => false

/-- Shallow embedding of `is_video_file` (Starter lines 64-88): content-type
allow-list first (`if content_type and content_type.lower() in ...`), then the
filename-extension fallback. -/
def is_video_file (content_type : String) (blob_name : Option String) : Bool :=
  if content_type ≠ "" ∧ pyLower content_type ∈ video_content_types then true
  else extension_fallback blob_name

/-- The fields the Starter reads from the Event Grid event JSON; `none` models
a missing field where the source's default is `None`, and `contentType` /
`contentLength` carry the source's defaults `""` / `0`.  `subject` merges the
source's `.get("subject", "")`. -/
structure EventData where
  url : Option String
  subject : String
  eventType : Option String
  eventTime : Option String
  contentType : String
  contentLength : Int

/-- The `video_info` dict the Starter builds (lines 21-29). -/
structure VideoInfo where
  blob_url : Option String
  blob_name : Option String
  container_name : String
  event_type : Option String
  event_time : Option String
  content_type : String
  content_length : Int

/-- Starter lines 21-29: `blob_name` is the last `/`-segment of `subject`
when `subject` is truthy, else `None`. -/
def video_info_of_event (e : EventData) : VideoInfo :=
  { blob_url := e.url
    blob_name :=
      if e.subject ≠ "" then some ((pySplit e.subject '/').getLastD "") else none
    container_name := extract_container_name e.subject
    event_type := e.eventType
    event_time := e.eventTime
    content_type := e.contentType
    content_length := e.contentLength }

/-- Shallow embedding of the Starter's `main` (lines 7-50): builds
`video_info`; when `is_video_file` is negative it returns without creating an
instance (`none`, the explicit skip of lines 32-34); otherwise it starts a new
orchestration through the client (`start_new`) and an instance id exists
(`some`). -/
def starter_main (start_new : VideoInfo → String) (e : EventData) : Option String :=
  let video_info := video_info_of_event e
  if is_video_file video_info.content_type video_info.blob_name then
    some (start_new video_info)
  else none

/-! ## Status Query Service (`src/functions/VideoProcessingStatus/__init__.py`) -/

/-- Python truthiness of a JSON value (`if status.input_:` etc.). -/
def JVal.truthy : JVal → Bool
  | JVal.null => false
  | JVal.str s => s ≠ ""
  | JVal.num n => n ≠ 0
  | JVal.obj fields => !fields.isEmpty
  | JVal.arr elems => !elems.isEmpty

/-- Python `d.get(key, default)` on a parsed JSON dict. -/
def pyGetD (v : JVal) (k : String) (default : JVal) : JVal :=
  match v with
  | JVal.obj fields =>
    match fields.lookup k with
    | some x => x
    | none => default
  | _ => default

/-- The Python exceptions the status handler distinguishes. -/
inductive PyErr where
  | valueError (msg : String)
  | other (msg : String)
  deriving DecidableEq

/-- The fields of the framework `DurableOrchestrationStatus` that
`get_orchestration_status` reads.  `input_` and `output` are modelled as
already-parsed JSON values (the source's `json.loads` of the string case);
timestamps are integer seconds, so `(a - b).total_seconds()` is `a - b`. -/
structure DurableStatus where
  runtime_status : Option String
  created_time : Option Int
  last_updated_time : Option Int
  input_ : Option JVal
  output : Option JVal
  custom_status : Option JVal
  history_events : List (String × Int)

/-- The result dict of `get_orchestration_status` (Status lines 114-140). -/
structure StatusView where
  instance_id : String
  runtime_status : String
  created_time : Option Int
  last_updated_time : Option Int
  processing_duration : Option String
  video_info : List (String × JVal)
  output : JVal
  custom_status : Option JVal
  execution_history : Option (List (String × Int))
  management_urls : List (String × String)

/-- Status lines 87-98: the `video_info` block; a truthy non-dict input falls
into the `except (JSONDecodeError, AttributeError)` branch. -/
def statusVideoInfo : Option JVal → List (String × JVal)
  | none => []
  | some input_data =>
    if input_data.truthy then
      match input_data with
      | JVal.obj _ =>
        [("video_name", pyGetD input_data "blob_name" (JVal.str "Unknown")),
         ("container_name", pyGetD input_data "container_name" (JVal.str "Unknown")),
         ("blob_url", pyGetD input_data "blob_url" (JVal.str ""))]
      | _ => [("video_name", JVal.str "Unable to parse")]
    else []

/-- Python `f"{duration_seconds:.1f} seconds"` (Status line 112); with whole-second
timestamps the fractional digit is always 0. -/
def format_duration (d : Int) : String := toString d ++ ".0 seconds"

/-- Shallow embedding of `get_orchestration_status` (Status lines 64-146).
The framework client is modelled as a partial map `store` from instance id to
its `DurableOrchestrationStatus`; a falsy result raises `ValueError` (line
85), which the caller surfaces. -/
def get_orchestration_status (store : String → Option DurableStatus)
    (instance_id : String) (include_history : Bool) : Except PyErr StatusView :=
  match store instance_id with
  | none =>
    Except.error (PyErr.valueError
      ("Orchestration instance '" ++ instance_id ++ "' not found"))
  | some status =>
    let processing_duration :=
      match status.created_time, status.last_updated_time with
      | some c, some l => some (format_duration (l - c))
      | _, _ => none
    Except.ok
      { instance_id := instance_id
        runtime_status := status.runtime_status.getD "Unknown"
        created_time := status.created_time
        last_updated_time := status.last_updated_time
        processing_duration := processing_duration
        video_info := statusVideoInfo status.input_
        output :=
          match status.output with
          | some o => if o.truthy then o else JVal.obj []
          | none => JVal.obj []
        custom_status := status.custom_status
        execution_history :=
          if include_history && !status.history_events.isEmpty then
            some status.history_events
          else none
        management_urls :=
          [("status_query", "/api/VideoProcessingStatus/" ++ instance_id),
           ("status_with_history",
            "/api/VideoProcessingStatus/" ++ instance_id ++ "?include_history=true")] }

/-- The JSON body of the HTTP response the status handler returns. -/
inductive RespBody where
  | statusResult (v : StatusView)
  | messageBody (message : String)
  | errorBody (error : String) (message : String)

/-- An HTTP response of the status handler. -/
structure HttpResponse where
  status_code : Nat
  body : RespBody

/-- Shallow embedding of the Status function's `main` (lines 8-61): routes on
route/query parameters, serialises the successful result with status 200,
turns a `ValueError` into a 400 response and any other exception into a 500
response — no exception escapes to the caller. -/
def status_main (store : String → Option DurableStatus)
    (route_instance_id : Option String) (video_name : Option String)
    (include_history : Bool) : HttpResponse :=
  let result : Except PyErr RespBody :=
    match route_instance_id with
    | some instance_id =>
      (get_orchestration_status store instance_id include_history).map RespBody.statusResult
    | none =>
      match video_name with
      | some vn =>
        Except.ok (RespBody.messageBody
          ("Search by video name '" ++ vn ++ "' not yet implemented"))
      | none =>
        Except.ok (RespBody.messageBody
          "Listing recent orchestrations not yet fully implemented")
  match result with
  | Except.ok body => { status_code := 200, body := body }
  | Except.error (PyErr.valueError m) =>
    { status_code := 400, body := RespBody.errorBody "Bad Request" m }
  | Except.error (PyErr.other m) =>
    { status_code := 500, body := RespBody.errorBody "Internal Server Error" m }

/-! ## Derived descriptions of run outcomes -/

/-- The `orchestration_result` of a run in which all five stages succeed
(orchestrator lines 41-119): five completed StepRecords in execution order,
no errors, `end_time` recorded and
`processing_duration_seconds = end_time - start_time`. -/
def completed_result (video_info : JVal) (time : Nat → Int)
    (r1 r2 r3 r4 r5 : JVal) : OrchResult :=
  { video_info := video_info
    start_time := time 0
    status := "completed"
    steps :=
      [("metadata", StepRecord.mk "completed" r1 (time 1)),
       ("analysis", StepRecord.mk "completed" r2 (time 2)),
       ("embeddings", StepRecord.mk "completed" r3 (time 3)),
       ("search_storage", StepRecord.mk "completed" r4 (time 4)),
       ("insights", StepRecord.mk "completed" r5 (time 5))]
    errors := []
    end_time := some (time 5)
    processing_duration_seconds := some (time 5 - time 0) }

/-- With no recorded history every stage dispatch goes to the Activity
Invoker and is externally visible. -/
theorem stageCall_nil (invoke : Invoker) (name : String) (payload : JVal) :
    stageCall [] invoke name payload = (invoke name payload, [(name, payload)]) := rfl

/-- Python `dict.get` on a dict never raises: it yields the stored value or `None`. -/
theorem pyGet_obj (fields : List (String × JVal)) (k : String) :
    pyGet (JVal.obj fields) k = Except.ok ((fields.lookup k).getD JVal.null) := by
  simp only [pyGet]
  cases fields.lookup k <;> rfl

/-! ## Concrete fixtures used by witnesses and counterexamples -/

/-- A stub `document_id` value. -/
def stub_doc : JVal := JVal.str "doc-1"

/-- The fields of the stub activity result. -/
def stub_fields : List (String × JVal) := [("document_id", stub_doc)]

/-- A stub activity result that exposes `document_id`. -/
def stub_result : JVal := JVal.obj stub_fields

/-- A stub Activity Invoker: every stage succeeds with `stub_result`. -/
def stub_invoker : Invoker := fun _ _ => Except.ok stub_result

/-- The fields of a sample triggering `video_info`. -/
def sample_fields : List (String × JVal) :=
  [("blob_name", JVal.str "demo.mp4"), ("container_name", JVal.str "videos")]

/-- A sample triggering `video_info` payload. -/
def sample_video_info : JVal := JVal.obj sample_fields

/-- A sample deterministic clock: the k-th yield happens at second k. -/
def tick : Nat → Int := fun k => Int.ofNat k

/-- An invoker whose stage 3 (`GenerateEmbeddings`) fails; all other stages
succeed with `stub_result`. -/
def failing3_invoker : Invoker := fun name payload =>
  if name = "GenerateEmbeddings" then Except.error "boom"
  else stub_invoker name payload

/-- An invoker whose given stage fails with `"boom"`; all other stages succeed
with `stub_result`. -/
def failing_invoker (stage : String) : Invoker := fun name payload =>
  if name = stage then Except.error "boom"
  else stub_invoker name payload

/-! ## Claims about the Orchestration State Machine -/

/-- C1: in every run in which the five stages succeed, the State Machine
invokes exactly the five stages, one at a time, in the fixed order
extract-metadata (`ExtractVideoMetadata`), analyze-content
(`AnalyzeVideoContent`), generate-embeddings (`GenerateEmbeddings`),
store-in-search (`StoreInAzureSearch`), generate-insights
(`GenerateVideoInsights`), each with exactly the accumulated prior outputs as
its input payload; in particular generate-insights receives
`search_document_id`, the `document_id` field of the store-in-search result.
No stage is skipped or reordered: the external call trace is exactly these
five calls. -/
theorem orchestrator_fixed_stage_sequence (invoke : Invoker)
    (vf : List (String × JVal)) (time : Nat → Int)
    (r1 r2 r3 r5 : JVal) (f4 : List (String × JVal))
    (h1 : invoke "ExtractVideoMetadata" (JVal.obj vf) = Except.ok r1)
    (h2 : invoke "AnalyzeVideoContent" (analyze_payload (JVal.obj vf) r1) = Except.ok r2)
    (h3 : invoke "GenerateEmbeddings" (embeddings_payload (JVal.obj vf) r2 r1) = Except.ok r3)
    (h4 : invoke "StoreInAzureSearch" (search_payload (JVal.obj vf) r1 r2 r3) =
      Except.ok (JVal.obj f4))
    (h5 : invoke "GenerateVideoInsights"
        (insights_payload (JVal.obj vf) r1 r2 ((f4.lookup "document_id").getD JVal.null)) =
      Except.ok r5) :
    orchestrator_function [] invoke (JVal.obj vf) time =
      Except.ok
        (completed_result (JVal.obj vf) time r1 r2 r3 (JVal.obj f4) r5,
         [("ExtractVideoMetadata", JVal.obj vf),
          ("AnalyzeVideoContent", analyze_payload (JVal.obj vf) r1),
          ("GenerateEmbeddings", embeddings_payload (JVal.obj vf) r2 r1),
          ("StoreInAzureSearch", search_payload (JVal.obj vf) r1 r2 r3),
          ("GenerateVideoInsights",
            insights_payload (JVal.obj vf) r1 r2 ((f4.lookup "document_id").getD JVal.null))]) := by
  simp only [orchestrator_function, stageCall_nil, h1, h2, h3, h4, h5, pyGet_obj,
    completed_result, List.singleton_append, List.cons_append, List.nil_append]

/-- Witness for C1: a concrete five-stage run with the stub invoker. -/
theorem orchestrator_fixed_stage_sequence_witness :
    orchestrator_function [] stub_invoker sample_video_info tick =
      Except.ok
        (completed_result sample_video_info tick stub_result stub_result stub_result
          stub_result stub_result,
         [("ExtractVideoMetadata", sample_video_info),
          ("AnalyzeVideoContent", analyze_payload sample_video_info stub_result),
          ("GenerateEmbeddings", embeddings_payload sample_video_info stub_result stub_result),
          ("StoreInAzureSearch",
            search_payload sample_video_info stub_result stub_result stub_result),
          ("GenerateVideoInsights",
            insights_payload sample_video_info stub_result stub_result stub_doc)]) :=
  orchestrator_fixed_stage_sequence stub_invoker sample_fields tick
    stub_result stub_result stub_result stub_result stub_fields rfl rfl rfl rfl rfl

/-- C2: replay idempotence (replay machinery modelled from the spec, see
`stageCall`).  For a run whose five stages succeed: (i) the original execution
(empty history) makes exactly the five external calls; (ii) re-executing
against a history in which stages 1-3 are already completed invokes the
Activity Invoker only for stages 4 and 5, and returns the same
`orchestration_result`; (iii) re-executing from scratch over the full
unchanged history makes no external call at all and returns the same
`orchestration_result` — so re-execution adds no duplicate external calls for
already-completed stages and reproduces the original outcome. -/
theorem orchestrator_replay_idempotence (invoke : Invoker)
    (vf : List (String × JVal)) (time : Nat → Int)
    (r1 r2 r3 r5 : JVal) (f4 : List (String × JVal))
    (h1 : invoke "ExtractVideoMetadata" (JVal.obj vf) = Except.ok r1)
    (h2 : invoke "AnalyzeVideoContent" (analyze_payload (JVal.obj vf) r1) = Except.ok r2)
    (h3 : invoke "GenerateEmbeddings" (embeddings_payload (JVal.obj vf) r2 r1) = Except.ok r3)
    (h4 : invoke "StoreInAzureSearch" (search_payload (JVal.obj vf) r1 r2 r3) =
      Except.ok (JVal.obj f4))
    (h5 : invoke "GenerateVideoInsights"
        (insights_payload (JVal.obj vf) r1 r2 ((f4.lookup "document_id").getD JVal.null)) =
      Except.ok r5) :
    orchestrator_function [] invoke (JVal.obj vf) time =
      Except.ok
        (completed_result (JVal.obj vf) time r1 r2 r3 (JVal.obj f4) r5,
         [("ExtractVideoMetadata", JVal.obj vf),
          ("AnalyzeVideoContent", analyze_payload (JVal.obj vf) r1),
          ("GenerateEmbeddings", embeddings_payload (JVal.obj vf) r2 r1),
          ("StoreInAzureSearch", search_payload (JVal.obj vf) r1 r2 r3),
          ("GenerateVideoInsights",
            insights_payload (JVal.obj vf) r1 r2 ((f4.lookup "document_id").getD JVal.null))]) ∧
    orchestrator_function
        [("ExtractVideoMetadata", r1), ("AnalyzeVideoContent", r2), ("GenerateEmbeddings", r3)]
        invoke (JVal.obj vf) time =
      Except.ok
        (completed_result (JVal.obj vf) time r1 r2 r3 (JVal.obj f4) r5,
         [("StoreInAzureSearch", search_payload (JVal.obj vf) r1 r2 r3),
          ("GenerateVideoInsights",
            insights_payload (JVal.obj vf) r1 r2 ((f4.lookup "document_id").getD JVal.null))]) ∧
    orchestrator_function
        [("ExtractVideoMetadata", r1), ("AnalyzeVideoContent", r2), ("GenerateEmbeddings", r3),
         ("StoreInAzureSearch", JVal.obj f4), ("GenerateVideoInsights", r5)]
        invoke (JVal.obj vf) time =
      Except.ok (completed_result (JVal.obj vf) time r1 r2 r3 (JVal.obj f4) r5, []) := by
  refine ⟨?_, ?_, ?_⟩
  · simp only [orchestrator_function, stageCall_nil, h1, h2, h3, h4, h5, pyGet_obj,
      completed_result, List.singleton_append, List.cons_append, List.nil_append]
  · simp only [orchestrator_function, stageCall, List.lookup, String.reduceBEq]
    rw [h4]
    simp only []
    rw [pyGet_obj]
    simp only []
    rw [h5]
    simp only [completed_result, List.singleton_append, List.cons_append, List.nil_append]
  · simp only [orchestrator_function, stageCall, List.lookup, String.reduceBEq]
    rw [pyGet_obj]
    simp only [completed_result, List.singleton_append, List.cons_append, List.nil_append]

/-- Witness for C2: with the stub invoker, replaying over the recorded
stage-1-3 results calls only stages 4 and 5, and replaying over the full
history calls nothing; both reproduce the original result. -/
theorem orchestrator_replay_idempotence_witness :
    orchestrator_function [] stub_invoker sample_video_info tick =
      Except.ok
        (completed_result sample_video_info tick stub_result stub_result stub_result
          stub_result stub_result,
         [("ExtractVideoMetadata", sample_video_info),
          ("AnalyzeVideoContent", analyze_payload sample_video_info stub_result),
          ("GenerateEmbeddings", embeddings_payload sample_video_info stub_result stub_result),
          ("StoreInAzureSearch",
            search_payload sample_video_info stub_result stub_result stub_result),
          ("GenerateVideoInsights",
            insights_payload sample_video_info stub_result stub_result stub_doc)]) ∧
    orchestrator_function
        [("ExtractVideoMetadata", stub_result), ("AnalyzeVideoContent", stub_result),
         ("GenerateEmbeddings", stub_result)] stub_invoker sample_video_info tick =
      Except.ok
        (completed_result sample_video_info tick stub_result stub_result stub_result
          stub_result stub_result,
         [("StoreInAzureSearch",
            search_payload sample_video_info stub_result stub_result stub_result),
          ("GenerateVideoInsights",
            insights_payload sample_video_info stub_result stub_result stub_doc)]) ∧
    orchestrator_function
        [("ExtractVideoMetadata", stub_result), ("AnalyzeVideoContent", stub_result),
         ("GenerateEmbeddings", stub_result), ("StoreInAzureSearch", stub_result),
         ("GenerateVideoInsights", stub_result)] stub_invoker sample_video_info tick =
      Except.ok
        (completed_result sample_video_info tick stub_result stub_result stub_result
          stub_result stub_result, []) :=
  orchestrator_replay_idempotence stub_invoker sample_fields tick
    stub_result stub_result stub_result stub_result stub_fields rfl rfl rfl rfl rfl

/-- Every normally-returning run of `orchestrator_function` produces either
the all-five-stages success result or the `except`-branch failure result. -/
theorem orchestrator_run_shape (hist : History) (invoke : Invoker) (vi : JVal)
    (time : Nat → Int) (r : OrchResult) (calls : List (String × JVal))
    (h : orchestrator_function hist invoke vi time = Except.ok (r, calls)) :
    (∃ r1 r2 r3 r4 r5, r = completed_result vi time r1 r2 r3 r4 r5) ∨
    (∃ steps e tk, r = failResult vi (time 0) steps e tk) := by
  cases vi with
  | null => simp [orchestrator_function] at h
  | str s => simp [orchestrator_function] at h
  | num n => simp [orchestrator_function] at h
  | arr elems => simp [orchestrator_function] at h
  | obj vf =>
    simp only [orchestrator_function] at h
    rw [Except.ok.injEq] at h
    split at h
    · rw [Prod.mk.injEq] at h
      exact Or.inr ⟨_, _, _, h.1.symm⟩
    · split at h
      · rw [Prod.mk.injEq] at h
        exact Or.inr ⟨_, _, _, h.1.symm⟩
      · split at h
        · rw [Prod.mk.injEq] at h
          exact Or.inr ⟨_, _, _, h.1.symm⟩
        · split at h
          · rw [Prod.mk.injEq] at h
            exact Or.inr ⟨_, _, _, h.1.symm⟩
          · split at h
            · rw [Prod.mk.injEq] at h
              exact Or.inr ⟨_, _, _, h.1.symm⟩
            · split at h
              · rw [Prod.mk.injEq] at h
                exact Or.inr ⟨_, _, _, h.1.symm⟩
              · rw [Prod.mk.injEq] at h
                exact Or.inl ⟨_, _, _, _, _, h.1.symm⟩

/-- C3 counterexample: in a concrete run where stage 3
(`GenerateEmbeddings`) fails after stages 1-2 completed, the single appended
ErrorRecord's `step` field is the fixed string `"orchestration"` (orchestrator
line 128), which does not name the failing stage under any of its names — the
claim that the `step` field names the failing stage is false. -/
theorem error_step_name_counterexample :
    (orchestrator_function [] failing3_invoker sample_video_info tick).map
        (fun rc => (rc.1.steps.map Prod.fst, rc.1.errors.map ErrorRecord.step)) =
      Except.ok (["metadata", "analysis"], ["orchestration"]) ∧
    "orchestration" ≠ "GenerateEmbeddings" ∧
    "orchestration" ≠ "generate-embeddings" ∧
    "orchestration" ≠ "embeddings" :=
  ⟨rfl, by decide, by decide, by decide⟩

/-- C3 (amended): for every run in which some stage invocation fails —
whichever of the five stages it is — the State Machine appends exactly one
ErrorRecord, whose `step` field is the generic marker `"orchestration"` rather
than the failing stage's name (that is what `failResult`, the embedding of the
`except` branch, records), sets the status to `failed`, records `end_time`,
and halts: `steps` holds exactly the completed records of the stages before
the failing one and the external call trace ends at the failing stage, so no
later stage is ever invoked.  One conjunct per failing stage; in particular
the third conjunct is the claim's stage-3 case, with exactly the two completed
records for stages 1-2 and exactly one error record. -/
theorem orchestrator_failure_shortcircuit (invoke : Invoker)
    (vf : List (String × JVal)) (time : Nat → Int) :
    (∀ e, invoke "ExtractVideoMetadata" (JVal.obj vf) = Except.error e →
      orchestrator_function [] invoke (JVal.obj vf) time =
        Except.ok (failResult (JVal.obj vf) (time 0) [] e (time 1),
          [("ExtractVideoMetadata", JVal.obj vf)])) ∧
    (∀ r1 e, invoke "ExtractVideoMetadata" (JVal.obj vf) = Except.ok r1 →
      invoke "AnalyzeVideoContent" (analyze_payload (JVal.obj vf) r1) = Except.error e →
      orchestrator_function [] invoke (JVal.obj vf) time =
        Except.ok (failResult (JVal.obj vf) (time 0)
            [("metadata", StepRecord.mk "completed" r1 (time 1))] e (time 2),
          [("ExtractVideoMetadata", JVal.obj vf),
           ("AnalyzeVideoContent", analyze_payload (JVal.obj vf) r1)])) ∧
    (∀ r1 r2 e, invoke "ExtractVideoMetadata" (JVal.obj vf) = Except.ok r1 →
      invoke "AnalyzeVideoContent" (analyze_payload (JVal.obj vf) r1) = Except.ok r2 →
      invoke "GenerateEmbeddings" (embeddings_payload (JVal.obj vf) r2 r1) = Except.error e →
      orchestrator_function [] invoke (JVal.obj vf) time =
        Except.ok (failResult (JVal.obj vf) (time 0)
            [("metadata", StepRecord.mk "completed" r1 (time 1)),
             ("analysis", StepRecord.mk "completed" r2 (time 2))] e (time 3),
          [("ExtractVideoMetadata", JVal.obj vf),
           ("AnalyzeVideoContent", analyze_payload (JVal.obj vf) r1),
           ("GenerateEmbeddings", embeddings_payload (JVal.obj vf) r2 r1)])) ∧
    (∀ r1 r2 r3 e, invoke "ExtractVideoMetadata" (JVal.obj vf) = Except.ok r1 →
      invoke "AnalyzeVideoContent" (analyze_payload (JVal.obj vf) r1) = Except.ok r2 →
      invoke "GenerateEmbeddings" (embeddings_payload (JVal.obj vf) r2 r1) = Except.ok r3 →
      invoke "StoreInAzureSearch" (search_payload (JVal.obj vf) r1 r2 r3) = Except.error e →
      orchestrator_function [] invoke (JVal.obj vf) time =
        Except.ok (failResult (JVal.obj vf) (time 0)
            [("metadata", StepRecord.mk "completed" r1 (time 1)),
             ("analysis", StepRecord.mk "completed" r2 (time 2)),
             ("embeddings", StepRecord.mk "completed" r3 (time 3))] e (time 4),
          [("ExtractVideoMetadata", JVal.obj vf),
           ("AnalyzeVideoContent", analyze_payload (JVal.obj vf) r1),
           ("GenerateEmbeddings", embeddings_payload (JVal.obj vf) r2 r1),
           ("StoreInAzureSearch", search_payload (JVal.obj vf) r1 r2 r3)])) ∧
    (∀ r1 r2 r3 f4 e, invoke "ExtractVideoMetadata" (JVal.obj vf) = Except.ok r1 →
      invoke "AnalyzeVideoContent" (analyze_payload (JVal.obj vf) r1) = Except.ok r2 →
      invoke "GenerateEmbeddings" (embeddings_payload (JVal.obj vf) r2 r1) = Except.ok r3 →
      invoke "StoreInAzureSearch" (search_payload (JVal.obj vf) r1 r2 r3) =
        Except.ok (JVal.obj f4) →
      invoke "GenerateVideoInsights"
          (insights_payload (JVal.obj vf) r1 r2 ((f4.lookup "document_id").getD JVal.null)) =
        Except.error e →
      orchestrator_function [] invoke (JVal.obj vf) time =
        Except.ok (failResult (JVal.obj vf) (time 0)
            [("metadata", StepRecord.mk "completed" r1 (time 1)),
             ("analysis", StepRecord.mk "completed" r2 (time 2)),
             ("embeddings", StepRecord.mk "completed" r3 (time 3)),
             ("search_storage", StepRecord.mk "completed" (JVal.obj f4) (time 4))] e (time 5),
          [("ExtractVideoMetadata", JVal.obj vf),
           ("AnalyzeVideoContent", analyze_payload (JVal.obj vf) r1),
           ("GenerateEmbeddings", embeddings_payload (JVal.obj vf) r2 r1),
           ("StoreInAzureSearch", search_payload (JVal.obj vf) r1 r2 r3),
           ("GenerateVideoInsights",
             insights_payload (JVal.obj vf) r1 r2 ((f4.lookup "document_id").getD JVal.null))])) := by
  refine ⟨?_, ?_, ?_, ?_, ?_⟩
  · intro e h1
    simp only [orchestrator_function, stageCall_nil, h1]
  · intro r1 e h1 h2
    simp only [orchestrator_function, stageCall_nil, h1, h2,
      List.singleton_append, List.cons_append, List.nil_append]
  · intro r1 r2 e h1 h2 h3
    simp only [orchestrator_function, stageCall_nil, h1, h2, h3,
      List.singleton_append, List.cons_append, List.nil_append]
  · intro r1 r2 r3 e h1 h2 h3 h4
    simp only [orchestrator_function, stageCall_nil, h1, h2, h3, h4,
      List.singleton_append, List.cons_append, List.nil_append]
  · intro r1 r2 r3 f4 e h1 h2 h3 h4 h5
    simp only [orchestrator_function, stageCall_nil, h1, h2, h3, h4, h5, pyGet_obj,
      List.singleton_append, List.cons_append, List.nil_append]

/-- Witness for the amended C3: five concrete runs, one per failing stage,
each halting with one `"orchestration"` ErrorRecord, the completed prefix of
steps, and a call trace ending at the failing stage. -/
theorem orchestrator_failure_shortcircuit_witness :
    orchestrator_function [] (failing_invoker "ExtractVideoMetadata") sample_video_info tick =
      Except.ok (failResult sample_video_info (tick 0) [] "boom" (tick 1),
        [("ExtractVideoMetadata", sample_video_info)]) ∧
    orchestrator_function [] (failing_invoker "AnalyzeVideoContent") sample_video_info tick =
      Except.ok (failResult sample_video_info (tick 0)
          [("metadata", StepRecord.mk "completed" stub_result (tick 1))] "boom" (tick 2),
        [("ExtractVideoMetadata", sample_video_info),
         ("AnalyzeVideoContent", analyze_payload sample_video_info stub_result)]) ∧
    orchestrator_function [] (failing_invoker "GenerateEmbeddings") sample_video_info tick =
      Except.ok (failResult sample_video_info (tick 0)
          [("metadata", StepRecord.mk "completed" stub_result (tick 1)),
           ("analysis", StepRecord.mk "completed" stub_result (tick 2))] "boom" (tick 3),
        [("ExtractVideoMetadata", sample_video_info),
         ("AnalyzeVideoContent", analyze_payload sample_video_info stub_result),
         ("GenerateEmbeddings", embeddings_payload sample_video_info stub_result stub_result)]) ∧
    orchestrator_function [] (failing_invoker "StoreInAzureSearch") sample_video_info tick =
      Except.ok (failResult sample_video_info (tick 0)
          [("metadata", StepRecord.mk "completed" stub_result (tick 1)),
           ("analysis", StepRecord.mk "completed" stub_result (tick 2)),
           ("embeddings", StepRecord.mk "completed" stub_result (tick 3))] "boom" (tick 4),
        [("ExtractVideoMetadata", sample_video_info),
         ("AnalyzeVideoContent", analyze_payload sample_video_info stub_result),
         ("GenerateEmbeddings", embeddings_payload sample_video_info stub_result stub_result),
         ("StoreInAzureSearch",
           search_payload sample_video_info stub_result stub_result stub_result)]) ∧
    orchestrator_function [] (failing_invoker "GenerateVideoInsights") sample_video_info tick =
      Except.ok (failResult sample_video_info (tick 0)
          [("metadata", StepRecord.mk "completed" stub_result (tick 1)),
           ("analysis", StepRecord.mk "completed" stub_result (tick 2)),
           ("embeddings", StepRecord.mk "completed" stub_result (tick 3)),
           ("search_storage", StepRecord.mk "completed" stub_result (tick 4))] "boom" (tick 5),
        [("ExtractVideoMetadata", sample_video_info),
         ("AnalyzeVideoContent", analyze_payload sample_video_info stub_result),
         ("GenerateEmbeddings", embeddings_payload sample_video_info stub_result stub_result),
         ("StoreInAzureSearch",
           search_payload sample_video_info stub_result stub_result stub_result),
         ("GenerateVideoInsights",
           insights_payload sample_video_info stub_result stub_result stub_doc)]) :=
  ⟨(orchestrator_failure_shortcircuit (failing_invoker "ExtractVideoMetadata")
      sample_fields tick).1 "boom" rfl,
   (orchestrator_failure_shortcircuit (failing_invoker "AnalyzeVideoContent")
      sample_fields tick).2.1 stub_result "boom" rfl rfl,
   (orchestrator_failure_shortcircuit (failing_invoker "GenerateEmbeddings")
      sample_fields tick).2.2.1 stub_result stub_result "boom" rfl rfl rfl,
   (orchestrator_failure_shortcircuit (failing_invoker "StoreInAzureSearch")
      sample_fields tick).2.2.2.1 stub_result stub_result stub_result "boom" rfl rfl rfl rfl,
   (orchestrator_failure_shortcircuit (failing_invoker "GenerateVideoInsights")
      sample_fields tick).2.2.2.2 stub_result stub_result stub_result stub_fields "boom"
      rfl rfl rfl rfl rfl⟩

/-- C4: every run whose final status is `completed` has a `StepRecord`
with status `completed` for each of the five stages, each exactly once, in the
fixed stage order, with `end_time` recorded and
`processing_duration_seconds = end_time - start_time`. -/
theorem orchestrator_completed_all_five (hist : History) (invoke : Invoker) (vi : JVal)
    (time : Nat → Int) (r : OrchResult) (calls : List (String × JVal))
    (h : orchestrator_function hist invoke vi time = Except.ok (r, calls))
    (hc : r.status = "completed") :
    r.steps.map Prod.fst =
      ["metadata", "analysis", "embeddings", "search_storage", "insights"] ∧
    (∀ p ∈ r.steps, (Prod.snd p).status = "completed") ∧
    (∃ te, r.end_time = some te ∧
      r.processing_duration_seconds = some (te - r.start_time)) := by
  rcases orchestrator_run_shape hist invoke vi time r calls h with
    ⟨r1, r2, r3, r4, r5, rfl⟩ | ⟨steps, e, tk, rfl⟩
  · refine ⟨rfl, ?_, ⟨time 5, rfl, rfl⟩⟩
    intro p hp
    simp only [completed_result, List.mem_cons, List.not_mem_nil, or_false] at hp
    rcases hp with rfl | rfl | rfl | rfl | rfl <;> rfl
  · exact absurd hc (by simp [failResult])

/-- Witness for C4: the concrete stub run reaches `completed` with the five
step records in order. -/
theorem orchestrator_completed_all_five_witness :
    (completed_result sample_video_info tick stub_result stub_result stub_result
        stub_result stub_result).steps.map Prod.fst =
      ["metadata", "analysis", "embeddings", "search_storage", "insights"] ∧
    (∀ p ∈ (completed_result sample_video_info tick stub_result stub_result stub_result
        stub_result stub_result).steps, (Prod.snd p).status = "completed") ∧
    (∃ te, (completed_result sample_video_info tick stub_result stub_result stub_result
        stub_result stub_result).end_time = some te ∧
      (completed_result sample_video_info tick stub_result stub_result stub_result
        stub_result stub_result).processing_duration_seconds =
        some (te - (completed_result sample_video_info tick stub_result stub_result stub_result
          stub_result stub_result).start_time)) :=
  orchestrator_completed_all_five [] stub_invoker sample_video_info tick _ _ rfl rfl

/-- C5 counterexample: the orchestrator's status field takes the value
`"processing"` (its initial assignment, orchestrator line 29), which is not in
the claimed vocabulary `pending | running | completed | failed`. -/
theorem orchestrator_status_vocabulary_counterexample :
    (orchestrator_function [] stub_invoker sample_video_info tick).map
        (fun rc => statusTrace rc.1) = Except.ok ["processing", "completed"] ∧
    "processing" ≠ "pending" ∧ "processing" ≠ "running" ∧
    "processing" ≠ "completed" ∧ "processing" ≠ "failed" :=
  ⟨rfl, by decide, by decide, by decide, by decide⟩

/-- C5 (amended): during a run the orchestrator's status takes values in
`processing | completed | failed`: it is initialised to `"processing"` and
changes exactly once, to the terminal value `"completed"` or `"failed"`, which
it never leaves (the trace of assignments is exactly
`["processing", final]`). -/
theorem orchestrator_status_monotone (hist : History) (invoke : Invoker) (vi : JVal)
    (time : Nat → Int) (r : OrchResult) (calls : List (String × JVal))
    (h : orchestrator_function hist invoke vi time = Except.ok (r, calls)) :
    statusTrace r = ["processing", r.status] ∧
    (r.status = "completed" ∨ r.status = "failed") := by
  refine ⟨rfl, ?_⟩
  rcases orchestrator_run_shape hist invoke vi time r calls h with
    ⟨r1, r2, r3, r4, r5, rfl⟩ | ⟨steps, e, tk, rfl⟩
  · exact Or.inl rfl
  · exact Or.inr rfl

/-- Witness for the amended C5 at the concrete stub run. -/
theorem orchestrator_status_monotone_witness :
    statusTrace (completed_result sample_video_info tick stub_result stub_result stub_result
        stub_result stub_result) =
      ["processing", (completed_result sample_video_info tick stub_result stub_result
        stub_result stub_result stub_result).status] ∧
    ((completed_result sample_video_info tick stub_result stub_result stub_result
        stub_result stub_result).status = "completed" ∨
     (completed_result sample_video_info tick stub_result stub_result stub_result
        stub_result stub_result).status = "failed") :=
  orchestrator_status_monotone [] stub_invoker sample_video_info tick _ _ rfl

/-! ## Claims about the Trigger/Starter -/

/-- C6: video classification decides by the content-type allow-list first
and falls back to the filename-extension allow-list exactly when the content
type is absent (`""`) or unrecognized; and the three specification vectors
evaluate as claimed. -/
theorem is_video_file_spec :
    is_video_file "video/mp4" (some "x") = true ∧
    is_video_file "" (some "clip.mkv") = true ∧
    is_video_file "image/png" (some "pic.png") = false ∧
    (∀ ct name, ct ≠ "" → pyLower ct ∈ video_content_types →
      is_video_file ct name = true) ∧
    (∀ ct name, ct = "" ∨ pyLower ct ∉ video_content_types →
      is_video_file ct name = extension_fallback name) := by
  refine ⟨by decide, by decide, by decide, ?_, ?_⟩
  · intro ct name hne hmem
    simp [is_video_file, hne, hmem]
  · intro ct name hor
    rcases hor with rfl | hnot
    · simp [is_video_file]
    · simp [is_video_file, hnot]

/-- Witness for C6: a recognized content type short-circuits to `true`; an
unrecognized one falls through to the extension check. -/
theorem is_video_file_spec_witness :
    is_video_file "video/quicktime" (some "n") = true ∧
    is_video_file "application/json" (some "clip.webm") =
      extension_fallback (some "clip.webm") :=
  ⟨is_video_file_spec.2.2.2.1 "video/quicktime" (some "n") (by decide) (by decide),
   is_video_file_spec.2.2.2.2 "application/json" (some "clip.webm") (Or.inr (by decide))⟩

/-- C7: the Starter creates an orchestration instance exactly when the
triggering object is classified as a video; a negative classification returns
normally with no instance created (`starter_main` is total, so the skip is not
an error). -/
theorem starter_creates_instance_iff_video (start_new : VideoInfo → String)
    (e : EventData) :
    (starter_main start_new e).isSome =
      is_video_file (video_info_of_event e).content_type
        (video_info_of_event e).blob_name := by
  simp only [starter_main]
  by_cases h : is_video_file (video_info_of_event e).content_type
      (video_info_of_event e).blob_name = true
  · simp [h]
  · simp only [Bool.not_eq_true] at h
    simp [h]

/-- First occurrence of `"containers"` after a block that does not contain
it. -/
theorem indexOf?_append_containers (pre : List String) (post : List String)
    (hpre : "containers" ∉ pre) :
    (pre ++ "containers" :: post).indexOf? "containers" = some pre.length := by
  induction pre with
  | nil => simp [List.indexOf?_cons]
  | cons a as ih =>
    have ha : a ≠ "containers" := fun hc => hpre (hc ▸ List.mem_cons_self a as)
    have hmem : "containers" ∉ as := fun hm => hpre (List.mem_cons_of_mem a hm)
    simp [List.indexOf?_cons, ha, ih hmem]

/-- Lookup by `indexOf?` misses a key that is not in the list. -/
theorem indexOf?_eq_none_of_not_mem (l : List String) (h : "containers" ∉ l) :
    l.indexOf? "containers" = none := by
  rw [List.indexOf?_eq_none_iff]
  intro x hx
  simp only [beq_iff_eq]
  exact fun hc => h (hc ▸ hx)

/-- The element right after the block is read back by position. -/
theorem getD_append_succ (pre : List String) (x : String) (post : List String) :
    (pre ++ "containers" :: x :: post).getD (pre.length + 1) "" = x := by
  induction pre with
  | nil => rfl
  | cons a as ih => simpa using ih

/-- C10: `extract_container_name` is total (it returns a string for every
input, all Python exception paths being caught) and returns the segment
immediately after the first `"containers"` path segment when that segment
exists and is followed by a further segment, and `""` in every other case (no
`"containers"` segment, or `"containers"` as the final segment — which, for
the first occurrence, exhausts all other cases). -/
theorem extract_container_name_spec (s : String) :
    ("containers" ∉ pySplit s '/' → extract_container_name s = "") ∧
    (∀ pre x post, pySplit s '/' = pre ++ "containers" :: x :: post →
      "containers" ∉ pre → extract_container_name s = x) ∧
    (∀ pre, pySplit s '/' = pre ++ ["containers"] → "containers" ∉ pre →
      extract_container_name s = "") := by
  refine ⟨?_, ?_, ?_⟩
  · intro h
    simp only [extract_container_name]
    rw [indexOf?_eq_none_of_not_mem _ h]
  · intro pre x post hsplit hpre
    simp only [extract_container_name]
    rw [hsplit, indexOf?_append_containers pre (x :: post) hpre]
    simp only []
    rw [if_pos]
    · exact getD_append_succ pre x post
    · simp [List.length_append]
  · intro pre hsplit hpre
    simp only [extract_container_name]
    rw [hsplit, indexOf?_append_containers pre [] hpre]
    simp only []
    rw [if_neg]
    simp [List.length_append]

/-- Witness for C10: the documented Event Grid subject shape yields its
container segment. -/
theorem extract_container_name_spec_witness :
    extract_container_name "/blobServices/default/containers/videos/blobs/demo.mp4" =
      "videos" :=
  (extract_container_name_spec "/blobServices/default/containers/videos/blobs/demo.mp4").2.1
    ["", "blobServices", "default"] "videos" ["blobs", "demo.mp4"] (by decide) (by decide)

/-! ## Claims about the Status Query Service -/

/-- C8: for an existing instance the status query computes
`processing_duration` as the difference of `last_updated_time` and
`created_time`, formatted as seconds, and the field is populated exactly when
both timestamps exist (it is `None`/absent otherwise). -/
theorem processing_duration_formula (store : String → Option DurableStatus)
    (instance_id : String) (include_history : Bool) (st : DurableStatus)
    (hst : store instance_id = some st) :
    ∃ view, get_orchestration_status store instance_id include_history = Except.ok view ∧
      (view.processing_duration.isSome ↔
        (st.created_time.isSome ∧ st.last_updated_time.isSome)) ∧
      (∀ c l, st.created_time = some c → st.last_updated_time = some l →
        view.processing_duration = some (format_duration (l - c))) := by
  refine ⟨_, by rw [get_orchestration_status, hst], ?_, ?_⟩
  · cases hc : st.created_time <;> cases hl : st.last_updated_time <;>
      simp [hc, hl]
  · intro c l hc hl
    simp [hc, hl]

/-- Witness for C8: a concrete store with one finished instance. -/
theorem processing_duration_formula_witness :
    ∃ view,
      get_orchestration_status
          (fun iid => if iid = "abc123" then
            some (DurableStatus.mk (some "Completed") (some 100) (some 142)
              (some sample_video_info) none none []) else none)
          "abc123" false = Except.ok view ∧
      (view.processing_duration.isSome ↔
        ((some (100 : Int)).isSome ∧ (some (142 : Int)).isSome)) ∧
      (∀ c l, some (100 : Int) = some c → some (142 : Int) = some l →
        view.processing_duration = some (format_duration (l - c))) :=
  processing_duration_formula
    (fun iid => if iid = "abc123" then
      some (DurableStatus.mk (some "Completed") (some 100) (some 142)
        (some sample_video_info) none none []) else none)
    "abc123" false
    (DurableStatus.mk (some "Completed") (some 100) (some 142)
      (some sample_video_info) none none []) rfl

/-- C9: a status query for an instance identifier that does not exist is
surfaced to the external caller as an HTTP error response whose message
reports the instance as not found (the handler's `ValueError` branch, status
code 400); `status_main` is a total function, so no exception escapes and the
service does not crash. -/
theorem status_unknown_instance_not_found (store : String → Option DurableStatus)
    (instance_id : String) (video_name : Option String) (include_history : Bool)
    (h : store instance_id = none) :
    status_main store (some instance_id) video_name include_history =
      { status_code := 400,
        body := RespBody.errorBody "Bad Request"
          ("Orchestration instance '" ++ instance_id ++ "' not found") } := by
  simp only [status_main, get_orchestration_status, h]
  rfl

/-- Witness for C9: the empty store knows no instance. -/
theorem status_unknown_instance_not_found_witness :
    status_main (fun _ => none) (some "missing-id") none false =
      { status_code := 400,
        body := RespBody.errorBody "Bad Request"
          ("Orchestration instance '" ++ "missing-id" ++ "' not found") } :=
  status_unknown_instance_not_found (fun _ => none) "missing-id" none false rfl

end RAGVideo
